import Mathlib

/-!
Verification of the workflow coordination layer of the github-automation
repository: status model, event schema, event bus error handling, and the
per-agent polling/dedup execution model.  Python sources are embedded
shallowly: pure functions become Lean functions, tracker/bus state becomes
explicit state passing, and fallible Python code returns `Except PyErr`.
-/

namespace GHA

/-- Python exception classes that the embedded code can raise. -/
inductive PyErr
  | attributeError
  | keyError
  | valueError
  | typeError
  | exceptionRaised
  deriving DecidableEq, Repr

/-! ## Status model (src/common/event_types.py) -/

/-- IssueStatus enumeration, constructors in the declared order of the
Python `IssueStatus(Enum)` class. -/
inductive IssueStatus
  | NEW
  | WAITING_FOR_CLARIFICATION
  | READY_FOR_DEV
  | IN_PROGRESS
  | READY_FOR_QA
  | DONE
  | BLOCKED
  deriving DecidableEq, Repr

open IssueStatus

/-- Module-level dict `STATUS_LABELS`, in source insertion order. -/
def STATUS_LABELS : List (IssueStatus × String) :=
  [ (NEW, "needs-analysis"),
    (WAITING_FOR_CLARIFICATION, "waiting_for_clarification"),
    (READY_FOR_DEV, "ready_for_dev"),
    (IN_PROGRESS, "in_progress"),
    (READY_FOR_QA, "ready_for_qa"),
    (DONE, "done"),
    (BLOCKED, "blocked") ]

/-- StatusManager.get_label_for_status: `STATUS_LABELS.get(status, "")`. -/
def get_label_for_status (status : IssueStatus) : String :=
  ((STATUS_LABELS.find? (fun p => p.1 == status)).map Prod.snd).getD ""

/-- Lookup in the inverted dict `label_to_status = {v: k for k, v in
STATUS_LABELS.items()}` built inside get_status_from_labels. -/
def label_to_status (label : String) : Option IssueStatus :=
  (STATUS_LABELS.find? (fun p => p.2 == label)).map Prod.fst

/-- StatusManager.get_status_from_labels: iterate over the input label list
and return the status of the first recognized label, else NEW. -/
def get_status_from_labels : List String → IssueStatus
  | [] => NEW
  | label :: rest =>
    match label_to_status label with
    | some s => s
    | none => get_status_from_labels rest

/-- Value of `valid_transitions.get(current_status, [])` in
StatusManager.is_ready_for_transition, entry by entry from the source. -/
def valid_transitions : IssueStatus → List IssueStatus
  | NEW => [WAITING_FOR_CLARIFICATION, READY_FOR_DEV]
  | WAITING_FOR_CLARIFICATION => [READY_FOR_DEV]
  | READY_FOR_DEV => [IN_PROGRESS]
  | IN_PROGRESS => [READY_FOR_QA, BLOCKED]
  | BLOCKED => [IN_PROGRESS]
  | READY_FOR_QA => [DONE, IN_PROGRESS]
  | DONE => []

/-- StatusManager.is_ready_for_transition:
`target_status in valid_transitions.get(current_status, [])`. -/
def is_ready_for_transition (current target : IssueStatus) : Bool :=
  (valid_transitions current).contains target

/-- The transition table exactly as the claim lists it. -/
def legalTransitionPairs : List (IssueStatus × IssueStatus) :=
  [ (NEW, WAITING_FOR_CLARIFICATION), (NEW, READY_FOR_DEV),
    (WAITING_FOR_CLARIFICATION, READY_FOR_DEV),
    (READY_FOR_DEV, IN_PROGRESS),
    (IN_PROGRESS, READY_FOR_QA), (IN_PROGRESS, BLOCKED),
    (BLOCKED, IN_PROGRESS),
    (READY_FOR_QA, DONE), (READY_FOR_QA, IN_PROGRESS) ]

/-- Modelled from the claim wording for C5: a total function that defaults
to NEW and, on multiple recognized labels, returns the status lowest in the
declared order of the IssueStatus enumeration. -/
def statusFromLabelsSpecEnumOrder (labels : List String) : IssueStatus :=
  let declaredOrder : List IssueStatus :=
    [NEW, WAITING_FOR_CLARIFICATION, READY_FOR_DEV, IN_PROGRESS,
     READY_FOR_QA, DONE, BLOCKED]
  ((declaredOrder.find? (fun s => labels.contains (get_label_for_status s))).getD NEW)

/-! ## Event schema (src/common/event_types.py, AgentEvent) -/

/-- EventType enumeration, constructors in declared order. -/
inductive EventType
  | ISSUE_CREATED
  | ISSUE_UPDATED
  | ISSUE_CLOSED
  | ISSUE_REOPENED
  | COMMENT_ADDED
  | LABEL_CHANGED
  | STATUS_CHANGED
  | AGENT_STARTED
  | AGENT_STOPPED
  | AGENT_ERROR
  | CODE_GENERATED
  | CODE_COMMITTED
  | CODE_REVIEWED
  | QA_PASSED
  | QA_FAILED
  deriving DecidableEq, Repr

/-- String value of each EventType member (`self.event_type.value`). -/
def EventType.value : EventType → String
  | ISSUE_CREATED => "issue_created"
  | ISSUE_UPDATED => "issue_updated"
  | ISSUE_CLOSED => "issue_closed"
  | ISSUE_REOPENED => "issue_reopened"
  | COMMENT_ADDED => "comment_added"
  | LABEL_CHANGED => "label_changed"
  | STATUS_CHANGED => "status_changed"
  | AGENT_STARTED => "agent_started"
  | AGENT_STOPPED => "agent_stopped"
  | AGENT_ERROR => "agent_error"
  | CODE_GENERATED => "code_generated"
  | CODE_COMMITTED => "code_committed"
  | CODE_REVIEWED => "code_reviewed"
  | QA_PASSED => "qa_passed"
  | QA_FAILED => "qa_failed"

/-- All EventType members in declared order. -/
def EventType.members : List EventType :=
  [ISSUE_CREATED, ISSUE_UPDATED, ISSUE_CLOSED, ISSUE_REOPENED,
   COMMENT_ADDED, LABEL_CHANGED, STATUS_CHANGED, AGENT_STARTED,
   AGENT_STOPPED, AGENT_ERROR, CODE_GENERATED, CODE_COMMITTED,
   CODE_REVIEWED, QA_PASSED, QA_FAILED]

/-- Enum value lookup `EventType(data['event_type'])`: raises ValueError when
the string is not the value of any member. -/
def EventType.ofValue (s : String) : Except PyErr EventType :=
  match EventType.members.find? (fun t => t.value == s) with
  | some t => Except.ok t
  | none => Except.error PyErr.valueError

/-- JSON values, the image of json.dumps / preimage of json.loads.  Numeric
scalars are embedded as integers; objects are string-keyed field lists. -/
inductive Json
  | null
  | bool (b : Bool)
  | num (n : Int)
  | str (s : String)
  | arr (elems : List Json)
  | obj (fields : List (String × Json))

/-- Dict lookup `data[k]` and `data.get(k)` on a parsed JSON object. -/
def Json.getField (j : Json) (k : String) : Option Json :=
  match j with
  | .obj fields => (fields.find? (fun p => p.1 == k)).map Prod.snd
  | _ => none

/-- AgentEvent dataclass: event_type, agent_name, timestamp (ISO string),
optional issue_number, payload dict. -/
structure AgentEvent where
  event_type : EventType
  agent_name : String
  timestamp : String
  issue_number : Option Int
  payload : List (String × Json)

/-- AgentEvent.to_json, modelled at the level of the JSON value handed to
json.dumps (the dumps/loads text layer is a faithful round-trip pair on
such values and is not re-modelled here). -/
def AgentEvent.to_json (e : AgentEvent) : Json :=
  Json.obj
    [ ("event_type", Json.str e.event_type.value),
      ("agent_name", Json.str e.agent_name),
      ("timestamp", Json.str e.timestamp),
      ("issue_number", match e.issue_number with
        | some n => Json.num n
        | none => Json.null),
      ("payload", Json.obj e.payload) ]

/-- AgentEvent.from_json on the JSON value produced by json.loads.
Subscript access raises KeyError when the key is absent; EventType(...)
raises ValueError on an unknown value; the remaining type-shape checks are
artifacts of typing the dataclass fields in the embedding. -/
def AgentEvent.from_json (data : Json) : Except PyErr AgentEvent := do
  let tyJson ← match data.getField "event_type" with
    | some v => Except.ok v
    | none => Except.error PyErr.keyError
  let ty ← match tyJson with
    | .str s => EventType.ofValue s
    | _ => Except.error PyErr.valueError
  let nameJson ← match data.getField "agent_name" with
    | some v => Except.ok v
    | none => Except.error PyErr.keyError
  let name ← match nameJson with
    | .str s => Except.ok s
    | _ => Except.error PyErr.typeError
  let tsJson ← match data.getField "timestamp" with
    | some v => Except.ok v
    | none => Except.error PyErr.keyError
  let ts ← match tsJson with
    | .str s => Except.ok s
    | _ => Except.error PyErr.typeError
  let issue ← match data.getField "issue_number" with
    | none => Except.ok (none : Option Int)
    | some Json.null => Except.ok none
    | some (Json.num n) => Except.ok (some n)
    | some _ => Except.error PyErr.typeError
  let pl ← match data.getField "payload" with
    | none => Except.ok ([] : List (String × Json))
    | some (Json.obj fields) => Except.ok fields
    | some _ => Except.error PyErr.typeError
  Except.ok ⟨ty, name, ts, issue, pl⟩

/-! ## GitHub tracker client (src/common/github_client.py) -/

/-- Tracker ground truth over the happy network path: issue number mapped to
its current label list. -/
abbrev Tracker := List (Nat × List String)

/-- GitHubClient.get_issue restricted to its observable result: the labels
of the issue, or none when the issue does not exist (HTTPError path). -/
def getIssueLabels (tr : Tracker) (n : Nat) : Option (List String) :=
  (tr.find? (fun p => p.1 == n)).map Prod.snd

/-- GitHubClient.remove_label: drop one label from the issue. -/
def remove_label (tr : Tracker) (n : Nat) (label : String) : Tracker :=
  tr.map (fun p => if p.1 == n then (p.1, p.2.filter (fun l => l != label)) else p)

/-- GitHubClient.add_labels: append labels the issue does not carry yet. -/
def add_labels (tr : Tracker) (n : Nat) (labels : List String) : Tracker :=
  tr.map (fun p =>
    if p.1 == n then (p.1, p.2 ++ labels.filter (fun l => !(p.2.contains l))) else p)

/-- Names bound in the class body of StatusManager.  The module-level dict
STATUS_LABELS is not among them, so the attribute access
`StatusManager.STATUS_LABELS` in set_status_label raises AttributeError. -/
def statusManagerClassAttrs : List String :=
  ["get_label_for_status", "get_status_from_labels", "is_ready_for_transition"]

/-- Python class attribute lookup on StatusManager. -/
def statusManagerAttrCheck (name : String) : Except PyErr Unit :=
  if statusManagerClassAttrs.contains name then Except.ok ()
  else Except.error PyErr.attributeError

/-- GitHubClient.set_status_label.  Line by line: read the current labels
(`.labels` on a None issue raises AttributeError), look up the class
attribute `StatusManager.STATUS_LABELS` (raises AttributeError, because the
dict is module-level), then — on the continuation the source intends —
remove every status label and add the label of the target status. -/
def set_status_label (tr : Tracker) (n : Nat) (status : IssueStatus) :
    Except PyErr Tracker := do
  let current ← match getIssueLabels tr n with
    | some labels => Except.ok labels
    | none => Except.error PyErr.attributeError
  statusManagerAttrCheck "STATUS_LABELS"
  let statusLabelValues := STATUS_LABELS.map Prod.snd
  let toRemove := current.filter (fun l => statusLabelValues.contains l)
  let tr1 := toRemove.foldl (fun t l => remove_label t n l) tr
  let newLabel := get_label_for_status status
  if newLabel != "" then Except.ok (add_labels tr1 n [newLabel])
  else Except.ok tr1

/-! ## Event bus (src/common/mqtt_client.py) -/

/-- MQTTClient.publish.  The transport argument models the outcome of
`self.client.publish(...)`: the paho result code, or a raised exception.
The surrounding try/except returns False on any exception; a disconnected
client returns False before touching the transport.  Result code 0 is
mqtt.MQTT_ERR_SUCCESS. -/
def MQTTClient.publish (connected : Bool) (transport : Except PyErr Int) :
    Except PyErr Bool :=
  let body : Except PyErr Bool :=
    if !connected then Except.ok false
    else match transport with
      | Except.ok rc => Except.ok (rc == 0)
      | Except.error e => Except.error e
  match body with
  | Except.ok b => Except.ok b
  | Except.error _ => Except.ok false

/-- MQTTClient.connect.  The argument models the body of the try block (URL
parsing plus `self.client.connect` and loop start), which can raise; the
except handler logs and returns False. -/
def MQTTClient.connect (attempt : Except PyErr Unit) : Except PyErr Bool :=
  match attempt with
  | Except.ok _ => Except.ok true
  | Except.error _ => Except.ok false

/-! ## Python string primitives over List Char

Python str values are embedded as lists of characters so that every string
operation the embedded code performs is a structural Lean function. -/

/-- PyStr is the embedding of a Python str. -/
abbrev PyStr := List Char

/-- Python `needle in hay` on strings: substring containment. -/
def isInfixOfB (needle : PyStr) : PyStr → Bool
  | [] => needle.isPrefixOf []
  | c :: rest => needle.isPrefixOf (c :: rest) || isInfixOfB needle rest

/-- Python str.split(sep) for a one-character separator: splitting the empty
string yields [""] and a trailing separator yields a trailing "". -/
def pySplit (sep : Char) : PyStr → List PyStr
  | [] => [[]]
  | c :: rest =>
    if c == sep then [] :: pySplit sep rest
    else
      match pySplit sep rest with
      | [] => [[c]]
      | line :: more => (c :: line) :: more

/-- Python str.strip(): drop whitespace from both ends. -/
def pyStrip (s : PyStr) : PyStr :=
  ((s.dropWhile Char.isWhitespace).reverse.dropWhile Char.isWhitespace).reverse

/-- Python slice `line[4:-4]`: characters from index 4 up to length - 4,
empty when the string is shorter than 8 characters. -/
def pySlice4neg4 (s : PyStr) : PyStr :=
  (s.drop 4).take (s.length - 8)

/-- Python dict assignment `d[k] = v` on a dict embedded as an ordered
association list: replace in place when the key exists, append otherwise. -/
def dictSet (d : List (PyStr × PyStr)) (k v : PyStr) : List (PyStr × PyStr) :=
  if d.any (fun p => p.1 == k) then
    d.map (fun p => if p.1 == k then (k, v) else p)
  else d ++ [(k, v)]

/-- Python truthiness of the current_file variable, which is either None or
a string (the empty string is falsy like None). -/
def truthy : Option PyStr → Bool
  | none => false
  | some s => !s.isEmpty

/-! ## Code response parsing (_parse_code_response, frontend and backend) -/

/-- Line test `line.startswith('===') and line.endswith('===')`. -/
def isFileMarker (line : PyStr) : Bool :=
  "===".data.isPrefixOf line && "===".data.isSuffixOf line

/-- Body of `if current_file: files[current_file] = '\n'.join(content)`. -/
def saveCurrentFile (files : List (PyStr × PyStr)) (cf : Option PyStr)
    (content : List PyStr) : List (PyStr × PyStr) :=
  match cf with
  | none => files
  | some f => if f.isEmpty then files else dictSet files f (List.intercalate ['\n'] content)

/-- Loop of _parse_code_response over the split lines, carrying the files
dict, the current_file variable and the accumulated current_content. -/
def parseCodeLoop (files : List (PyStr × PyStr)) (cf : Option PyStr)
    (content : List PyStr) : List PyStr → List (PyStr × PyStr) × Option PyStr × List PyStr
  | [] => (files, cf, content)
  | line :: rest =>
    if isFileMarker line then
      parseCodeLoop (saveCurrentFile files cf content)
        (some (pyStrip (pySlice4neg4 line))) [] rest
    else if truthy cf then
      parseCodeLoop files cf (content ++ [line]) rest
    else
      parseCodeLoop files cf content rest

/-- Default file name of the frontend parser: f"issue_{issue.number}.dart". -/
def frontendDefaultName (n : Nat) : PyStr :=
  ("issue_" ++ toString n ++ ".dart").data

/-- Default file name of the backend parser: f"backend_issue_{n}.py". -/
def backendDefaultName (n : Nat) : PyStr :=
  ("backend_issue_" ++ toString n ++ ".py").data

/-- Shared body of the two identical _parse_code_response implementations,
differing only in the default file name. -/
def parse_code_response_core (defaultName : PyStr) (response : PyStr) :
    List (PyStr × PyStr) :=
  match parseCodeLoop [] none [] (pySplit '\n' response) with
  | (files, cf, content) =>
    let files2 := saveCurrentFile files cf content
    if files2.isEmpty then [(defaultName, response)] else files2

/-- FrontendAgent._parse_code_response. -/
def parse_code_response (response : PyStr) (n : Nat) : List (PyStr × PyStr) :=
  parse_code_response_core (frontendDefaultName n) response

/-- BackendAgent._parse_code_response. -/
def backend_parse_code_response (response : PyStr) (n : Nat) : List (PyStr × PyStr) :=
  parse_code_response_core (backendDefaultName n) response

/-! ## LLM collaborator interface (src/common/llm_client.py boundary) -/

/-- Observable outcome of one generation call. -/
structure LLMResponse where
  success : Bool
  content : PyStr
  deriving DecidableEq, Repr

/-! ## QA agent (src/agents/qa_agent/agent.py) -/

/-- QAAgent._review_code reduced to its passed flag: on a successful LLM
response the review fails when the lowercased content mentions any of the
four trigger words; on an unsuccessful response the review passes. -/
def review_code_passed (resp : LLMResponse) : Bool :=
  if resp.success then
    !(["issue", "problem", "error", "concern"].any
        (fun w => isInfixOfB w.data (resp.content.map Char.toLower)))
  else true

/-- QAAgent._run_qa_checks reduced to its passed flag: the branch_exists
check always records passed (its try body cannot raise), the coverage check
returns passed in both branches of the source, so the conjunction reduces
to the code review result. -/
def run_qa_checks_passed (review coverage : LLMResponse) : Bool :=
  let branchExists := true
  let coveragePassed := coverage.success || !coverage.success
  branchExists && review_code_passed review && coveragePassed

/-- State of one QA agent instance together with the tracker it mutates. -/
structure QAState where
  tracker : Tracker
  processing : List Nat
  comments : List Nat
  deriving DecidableEq, Repr

/-- QAAgent._process_issue.  The entry is inserted first; both QA outcome
branches then call set_status_label; the deletion of the entry is the last
statement of the method and is NOT protected by try/finally, so a raise
anywhere in the body skips it.  doneLabel models config.labels.done. -/
def qa_process_issue (st : QAState) (n : Nat) (review coverage : LLMResponse)
    (doneLabel : Option String) : QAState × Except PyErr Unit :=
  let st := { st with processing := st.processing ++ [n] }
  if run_qa_checks_passed review coverage then
    match set_status_label st.tracker n IssueStatus.DONE with
    | Except.error e => (st, Except.error e)
    | Except.ok tr =>
      let tr2 := match doneLabel with
        | some l => add_labels tr n [l]
        | none => tr
      ({ st with tracker := tr2,
                 processing := st.processing.filter (fun m => m != n) }, Except.ok ())
  else
    match set_status_label st.tracker n IssueStatus.IN_PROGRESS with
    | Except.error e => (st, Except.error e)
    | Except.ok tr =>
      ({ st with tracker := tr,
                 comments := st.comments ++ [n],
                 processing := st.processing.filter (fun m => m != n) }, Except.ok ())

/-- QAAgent._process_issues, one poll cycle over the fetched issue list:
break on the stop event, skip issues already in the in-flight dict, and run
each remaining issue inside a per-item try/except that logs and continues. -/
def qa_process_issues (stopEv : Bool) (review coverage : LLMResponse)
    (doneLabel : Option String) : QAState → List Nat → QAState
  | st, [] => st
  | st, n :: rest =>
    if stopEv then st
    else if st.processing.contains n then
      qa_process_issues stopEv review coverage doneLabel st rest
    else
      match qa_process_issue st n review coverage doneLabel with
      | (st1, _) => qa_process_issues stopEv review coverage doneLabel st1 rest

/-! ## Backend agent (src/agents/backend_agent/agent.py) -/

/-- State of one backend agent instance together with the tracker. -/
structure BackendState where
  tracker : Tracker
  processing : List Nat
  commits : List (PyStr × PyStr)
  generationCalled : Bool
  deriving DecidableEq, Repr

/-- BackendAgent._generate_backend_code: raises when the generation call
reports failure, otherwise parses the response into files. -/
def backend_generate_code (n : Nat) (resp : LLMResponse) :
    Except PyErr (List (PyStr × PyStr)) :=
  if resp.success then Except.ok (backend_parse_code_response resp.content n)
  else Except.error PyErr.exceptionRaised

/-- BackendAgent._process_issue.  The entry is inserted and
set_status_label(IN_PROGRESS) is called BEFORE the try/finally block, so a
raise there propagates with the entry still in the dict; inside the try
block the generation call happens, the commit loop swallows its own errors,
set_status_label(READY_FOR_QA) runs, the except clause swallows any raise
from the block, and the finally clause deletes the entry. -/
def backend_process_issue (st : BackendState) (n : Nat) (resp : LLMResponse) :
    BackendState × Except PyErr Unit :=
  let st := { st with processing := st.processing ++ [n] }
  match set_status_label st.tracker n IssueStatus.IN_PROGRESS with
  | Except.error e => (st, Except.error e)
  | Except.ok tr =>
    let st := { st with tracker := tr, generationCalled := true }
    let bodyResult : Except PyErr BackendState := do
      let files ← backend_generate_code n resp
      let st2 := { st with commits := st.commits ++ files }
      let tr2 ← set_status_label st2.tracker n IssueStatus.READY_FOR_QA
      Except.ok { st2 with tracker := tr2 }
    let stAfter := match bodyResult with
      | Except.ok s => s
      | Except.error _ => st
    ({ stAfter with processing := stAfter.processing.filter (fun m => m != n) },
     Except.ok ())

/-! ## Requirements engineer polling loop (src/agents/requirements_engineer/agent.py) -/

/-- Boolean success of a per-item processing outcome. -/
def isOkUnit : Except PyErr Unit → Bool
  | Except.ok _ => true
  | Except.error _ => false

/-- RequirementsEngineerAgent._process_issues instrumented with per-item
outcomes: break on the stop event; each item runs inside try/except, so the
loop reaches every remaining item whatever the outcome of proc. -/
def re_process_issue_outcomes (proc : Nat → Except PyErr Unit) (stopEv : Bool) :
    List Nat → List (Nat × Bool)
  | [] => []
  | n :: rest =>
    if stopEv then []
    else
      match proc n with
      | Except.ok _ => (n, true) :: re_process_issue_outcomes proc stopEv rest
      | Except.error _ => (n, false) :: re_process_issue_outcomes proc stopEv rest

/-- RequirementsEngineerAgent._poll_loop cycle counter: each cycle runs
_process_issues inside try/except (errors are logged and published as an
AGENT_ERROR event), so every scheduled cycle completes. -/
def re_poll_loop : List (Except PyErr Unit) → Nat
  | [] => 0
  | r :: rest =>
    match r with
    | Except.ok _ => re_poll_loop rest + 1
    | Except.error _ => re_poll_loop rest + 1

/-! ## Interleaving of stop() and the polling thread (QAAgent.stop /
QAAgent._poll_loop / QAAgent._process_issues)

Two threads share the agent instance: the caller of stop() and the polling
thread started by start().  Steps are atomic at the granularity of one
Python statement group; tracker calls are counted, separately counting
those that happen after stop() has returned. -/

/-- Program counter of the polling thread.  loopCheck is the while
condition, fetch is the github.get_issues call, itemCheck is the per-item
stop check at the head of the for loop, procItem performs the tracker calls
of _process_issue for one item, waiting is stop_event.wait. -/
inductive PollPC
  | loopCheck
  | fetch
  | itemCheck (queue : List Nat)
  | procItem (n : Nat) (queue : List Nat)
  | waiting
  | exited
  deriving DecidableEq, Repr

/-- Program counter of the thread executing stop(): idle before the call,
midStop after `self.running = False; self._stop_event.set()`, stopDone
once stop() has published AGENT_STOPPED, disconnected the bus and
returned. -/
inductive MainPC
  | idle
  | midStop
  | stopDone
  deriving DecidableEq, Repr

/-- Shared state of the two threads. -/
structure AgentRun where
  running : Bool
  stopEv : Bool
  pollPC : PollPC
  mainPC : MainPC
  trackerCalls : Nat
  callsAfterStopReturn : Nat
  deriving DecidableEq, Repr

/-- Thread identifiers for the scheduler. -/
inductive Thread
  | mainT
  | pollT
  deriving DecidableEq, Repr

/-- One step of the thread executing stop(). -/
def stepMain (s : AgentRun) : AgentRun :=
  match s.mainPC with
  | MainPC.idle => { s with running := false, stopEv := true, mainPC := MainPC.midStop }
  | MainPC.midStop => { s with mainPC := MainPC.stopDone }
  | MainPC.stopDone => s

/-- Record one tracker call made by the polling thread. -/
def recordTrackerCall (s : AgentRun) : AgentRun :=
  { s with
    trackerCalls := s.trackerCalls + 1,
    callsAfterStopReturn :=
      if s.mainPC == MainPC.stopDone then s.callsAfterStopReturn + 1
      else s.callsAfterStopReturn }

/-- One step of the polling thread.  issues is the list the tracker returns
to get_issues. -/
def stepPoll (issues : List Nat) (s : AgentRun) : AgentRun :=
  match s.pollPC with
  | PollPC.loopCheck =>
    if s.running && !s.stopEv then { s with pollPC := PollPC.fetch }
    else { s with pollPC := PollPC.exited }
  | PollPC.fetch => { recordTrackerCall s with pollPC := PollPC.itemCheck issues }
  | PollPC.itemCheck [] => { s with pollPC := PollPC.waiting }
  | PollPC.itemCheck (n :: queue) =>
    if s.stopEv then { s with pollPC := PollPC.waiting }
    else { s with pollPC := PollPC.procItem n queue }
  | PollPC.procItem _ queue => { recordTrackerCall s with pollPC := PollPC.itemCheck queue }
  | PollPC.waiting => { s with pollPC := PollPC.loopCheck }
  | PollPC.exited => s

/-- One step of the chosen thread. -/
def stepThread (issues : List Nat) (s : AgentRun) : Thread → AgentRun
  | Thread.mainT => stepMain s
  | Thread.pollT => stepPoll issues s

/-- Run a finite schedule of thread steps. -/
def runSched (issues : List Nat) : List Thread → AgentRun → AgentRun
  | [], s => s
  | t :: ts, s => runSched issues ts (stepThread issues s t)

/-- Initial state: agent started, stop() not yet called, polling thread at
the while condition. -/
def initRun : AgentRun :=
  { running := true, stopEv := false, pollPC := PollPC.loopCheck,
    mainPC := MainPC.idle, trackerCalls := 0, callsAfterStopReturn := 0 }

/-- Cancellation check points of the polling thread: the while condition,
the per-item stop check, the cancellable wait, and the exited state. -/
def atCheckPoint : PollPC → Bool
  | PollPC.loopCheck => true
  | PollPC.itemCheck _ => true
  | PollPC.waiting => true
  | PollPC.exited => true
  | PollPC.fetch => false
  | PollPC.procItem _ _ => false

/-- Concrete LLM review response used to evaluate the QA processing path. -/
def qaReviewResp : LLMResponse := ⟨true, "Looks good".data⟩

/-- Concrete LLM coverage response used to evaluate the QA processing path. -/
def qaCoverageResp : LLMResponse := ⟨true, "ok".data⟩

/-- Concrete initial state: issue 5 labeled ready_for_qa, nothing in flight. -/
def qaInitState : QAState := ⟨[(5, ["ready_for_qa"])], [], []⟩

/-! ## Theorems about the status model, event schema, tracker client and bus -/

/-- C3: is_ready_for_transition accepts exactly the pairs of the fixed
transition graph and rejects every other pair. -/
theorem is_ready_for_transition_iff_table (current target : IssueStatus) :
    is_ready_for_transition current target =
      legalTransitionPairs.contains (current, target) := by
  cases current <;> cases target <;> rfl

/-- C5 counterexample: with the label list ["blocked", "done"] the code
returns BLOCKED (first recognized label in input order), while the claimed
enumeration-order policy would return DONE (which is lower in the declared
order of the enumeration). -/
theorem get_status_from_labels_not_enum_order :
    label_to_status "blocked" = some IssueStatus.BLOCKED ∧
    label_to_status "done" = some IssueStatus.DONE ∧
    get_status_from_labels ["blocked", "done"] = IssueStatus.BLOCKED ∧
    statusFromLabelsSpecEnumOrder ["blocked", "done"] = IssueStatus.DONE := by
  refine ⟨rfl, rfl, rfl, rfl⟩

/-- C5 amended: get_status_from_labels is total and deterministic, defaults
to NEW when no recognized status label is present, and on multiple
recognized labels returns the status of the first recognized label in the
order of the input list, not in the enumeration order. -/
theorem get_status_from_labels_first_match (labels : List String) :
    get_status_from_labels labels = (labels.findSome? label_to_status).getD IssueStatus.NEW := by
  induction labels with
  | nil => rfl
  | cons label rest ih =>
    simp only [get_status_from_labels, List.findSome?]
    cases h : label_to_status label with
    | some s => simp
    | none => simpa using ih


/-- C4: deserializing the serialization of any event yields an event
structurally equal to the original on every field. -/
theorem from_json_to_json_roundtrip (e : AgentEvent) :
    AgentEvent.from_json e.to_json = Except.ok e := by
  obtain ⟨ty, name, ts, issue, pl⟩ := e
  cases issue <;> cases ty <;> rfl


/-- Helper shared by the claims touching set_status_label: every call raises
AttributeError, either from `.labels` on a missing issue or, on the main
path, from the `StatusManager.STATUS_LABELS` class attribute access. -/
lemma set_status_label_raises (tr : Tracker) (n : Nat) (status : IssueStatus) :
    set_status_label tr n status = Except.error PyErr.attributeError := by
  unfold set_status_label
  cases getIssueLabels tr n <;> rfl

/-- C1: as written, set_status_label never removes or adds any label — every
call raises AttributeError at the `StatusManager.STATUS_LABELS` lookup (or
earlier, when the issue does not exist), before any tracker mutation. -/
theorem set_status_label_always_attribute_error
    (tr : Tracker) (n : Nat) (status : IssueStatus) :
    set_status_label tr n status = Except.error PyErr.attributeError :=
  set_status_label_raises tr n status

/-- C6: publish and connect always return a boolean and never propagate an
exception; a disconnected transport yields false from publish rather than a
raise, and transport-level errors in either call surface as false. -/
theorem publish_connect_boolean_never_raise :
    (∀ (connected : Bool) (transport : Except PyErr Int),
        ∃ b : Bool, MQTTClient.publish connected transport = Except.ok b) ∧
    (∀ transport : Except PyErr Int,
        MQTTClient.publish false transport = Except.ok false) ∧
    (∀ (connected : Bool) (e : PyErr),
        MQTTClient.publish connected (Except.error e) = Except.ok false) ∧
    (∀ attempt : Except PyErr Unit,
        ∃ b : Bool, MQTTClient.connect attempt = Except.ok b) ∧
    (∀ e : PyErr, MQTTClient.connect (Except.error e) = Except.ok false) := by
  refine ⟨?_, ?_, ?_, ?_, ?_⟩
  · intro connected transport
    cases connected <;> cases transport <;> exact ⟨_, rfl⟩
  · intro transport
    cases transport <;> rfl
  · intro connected e
    cases connected <;> rfl
  · intro attempt
    cases attempt <;> exact ⟨_, rfl⟩
  · intro e
    rfl

/-! ## Theorems about the agent runtime models -/

/-- C2: one QA poll cycle over issue 5 finishes its processing attempt with
a raise (set_status_label raises in both QA branches); because the deletion
in QAAgent._process_issue is not inside a finally clause, the in-flight
entry for 5 remains afterwards, and a second poll cycle then skips issue 5
entirely and changes nothing, so the item is never retried. -/
theorem qa_inflight_entry_leaks_on_raise :
    (qa_process_issues false qaReviewResp qaCoverageResp none qaInitState [5]).processing
        = [5] ∧
    qa_process_issues false qaReviewResp qaCoverageResp none
        (qa_process_issues false qaReviewResp qaCoverageResp none qaInitState [5]) [5]
      = qa_process_issues false qaReviewResp qaCoverageResp none qaInitState [5] := by
  decide

/-- C7: with the stop event clear, the per-item try/except makes the cycle
reach every fetched item regardless of which items raise, recording each
outcome; and the per-cycle try/except makes the poll loop complete every
scheduled cycle regardless of cycle failures. -/
theorem per_item_errors_never_terminate_polling (proc : Nat → Except PyErr Unit)
    (issues : List Nat) (cycles : List (Except PyErr Unit)) :
    re_process_issue_outcomes proc false issues
        = issues.map (fun n => (n, isOkUnit (proc n))) ∧
    re_poll_loop cycles = cycles.length := by
  constructor
  · induction issues with
    | nil => rfl
    | cons n rest ih =>
      simp only [re_process_issue_outcomes, Bool.false_eq_true, if_false]
      cases h : proc n <;> simp [isOkUnit, h, ih]
  · induction cycles with
    | nil => rfl
    | cons r rest ih => cases r <;> simp [re_poll_loop, ih]

/-- C8: backend per-item processing raises AttributeError at the
set_status_label(IN_PROGRESS) call, before the try block: the generation
call is never reached, the tracker and commit log are untouched, the
in-flight entry stays inserted, and the error propagates out of
_process_issue.  In particular no run in which the generation call reports
failure exists, and the status mutation is attempted before generation
rather than after it. -/
theorem backend_generation_never_reached (st : BackendState) (n : Nat)
    (resp : LLMResponse) :
    backend_process_issue st n resp
      = ({ st with processing := st.processing ++ [n] },
         Except.error PyErr.attributeError) := by
  simp [backend_process_issue, set_status_label_raises]

/-- C9 counterexample: a schedule in which the polling thread passes the
while condition, then stop() runs to completion and returns, and the
polling thread afterwards performs its get_issues tracker call: one tracker
call originates from the polling task after stop() has returned. -/
theorem tracker_call_after_stop_returned :
    (runSched [1] [Thread.pollT, Thread.mainT, Thread.mainT, Thread.pollT]
        initRun).callsAfterStopReturn = 1 ∧
    (runSched [1] [Thread.pollT, Thread.mainT, Thread.mainT, Thread.pollT]
        initRun).mainPC = MainPC.stopDone := by
  decide

/-- Steps preserve the stopped-at-checkpoint configuration and make no
tracker calls from it. -/
lemma step_preserves_stopped_checkpoint (issues : List Nat) (s : AgentRun)
    (t : Thread) (hstop : s.stopEv = true) (hpc : atCheckPoint s.pollPC = true) :
    (stepThread issues s t).stopEv = true ∧
    atCheckPoint (stepThread issues s t).pollPC = true ∧
    (stepThread issues s t).trackerCalls = s.trackerCalls := by
  cases t with
  | mainT => cases hm : s.mainPC <;> simp [stepThread, stepMain, hm, hstop, hpc]
  | pollT =>
    cases hp : s.pollPC with
    | itemCheck queue => cases queue <;> simp_all [stepThread, stepPoll, atCheckPoint]
    | loopCheck => simp_all [stepThread, stepPoll, atCheckPoint]
    | fetch => simp_all [stepThread, stepPoll, atCheckPoint]
    | procItem n queue => simp_all [stepThread, stepPoll, atCheckPoint]
    | waiting => simp_all [stepThread, stepPoll, atCheckPoint]
    | exited => simp_all [stepThread, stepPoll, atCheckPoint]

/-- C9 amended: once the stop event is set and the polling thread is at one
of its cancellation check points (the while condition, the per-item stop
check, or the cancellable wait), no schedule makes any further tracker call
originate from the polling task. -/
theorem no_tracker_calls_after_stop_checkpoint (issues : List Nat)
    (sched : List Thread) (s : AgentRun)
    (hstop : s.stopEv = true) (hpc : atCheckPoint s.pollPC = true) :
    (runSched issues sched s).trackerCalls = s.trackerCalls := by
  induction sched generalizing s with
  | nil => rfl
  | cons t ts ih =>
    obtain ⟨h1, h2, h3⟩ := step_preserves_stopped_checkpoint issues s t hstop hpc
    calc (runSched issues (t :: ts) s).trackerCalls
        = (runSched issues ts (stepThread issues s t)).trackerCalls := rfl
      _ = (stepThread issues s t).trackerCalls := ih (stepThread issues s t) h1 h2
      _ = s.trackerCalls := h3

/-- Witness for the amended C9 theorem at a concrete stopped state and
schedule. -/
theorem no_tracker_calls_after_stop_checkpoint_witness :
    (runSched [1, 2] [Thread.pollT, Thread.pollT, Thread.mainT]
        { running := false, stopEv := true, pollPC := PollPC.waiting,
          mainPC := MainPC.stopDone, trackerCalls := 7,
          callsAfterStopReturn := 0 }).trackerCalls = 7 :=
  no_tracker_calls_after_stop_checkpoint [1, 2]
    [Thread.pollT, Thread.pollT, Thread.mainT] _ rfl rfl

/-! ## Theorems about the code response parser -/

/-- The final files dict is non-empty whether or not the default branch
fires. -/
lemma ifEmptyDefault_pos (fs : List (PyStr × PyStr)) (d : PyStr × PyStr) :
    0 < (if fs.isEmpty then [d] else fs).length := by
  cases fs <;> simp

/-- On marker-free lines the parse loop leaves its state unchanged. -/
lemma parseCodeLoop_no_marker (files : List (PyStr × PyStr))
    (content : List PyStr) (lines : List PyStr)
    (h : ∀ l ∈ lines, isFileMarker l = false) :
    parseCodeLoop files none content lines = (files, none, content) := by
  induction lines with
  | nil => rfl
  | cons line rest ih =>
    have hl : isFileMarker line = false := h line (List.mem_cons_self line rest)
    simp only [parseCodeLoop, hl, Bool.false_eq_true, if_false, truthy]
    exact ih (fun l hmem => h l (List.mem_cons_of_mem line hmem))

/-- C10: the frontend parser always returns a non-empty file mapping, and
when no file-marker line occurs in the response it returns exactly the
single default file issue_<number>.dart holding the whole response. -/
theorem parse_code_response_nonempty_default (response : PyStr) (n : Nat) :
    0 < (parse_code_response response n).length ∧
    ((∀ line ∈ pySplit '\n' response, isFileMarker line = false) →
      parse_code_response response n = [(frontendDefaultName n, response)]) := by
  constructor
  · unfold parse_code_response parse_code_response_core
    rcases hpl : parseCodeLoop [] none [] (pySplit '\n' response)
      with ⟨files, cf, content⟩
    exact ifEmptyDefault_pos (saveCurrentFile files cf content) _
  · intro h
    unfold parse_code_response parse_code_response_core
    rw [parseCodeLoop_no_marker [] [] (pySplit '\n' response) h]
    rfl

/-- Witness for the C10 theorem: a marker-free response parses to the
single default file. -/
theorem parse_code_response_default_witness :
    parse_code_response "hello".data 3 = [(frontendDefaultName 3, "hello".data)] :=
  (parse_code_response_nonempty_default "hello".data 3).2 (by decide)

end GHA
